import Mathlib

/-!
Verification of the generate-design route of the Kawakubo repository.

The development shallowly embeds the two server-side components of
`app/api/generate-design/route.ts`:

* `createPromptWithReference` — the pure prompt builder, translated string
  for string from the TypeScript template literals;
* `POST` — the request handler, modelled as a pure function of the
  configured credential, the already-parsed JSON body (`none` models a
  body that failed `req.json()`), and the external provider, itself
  modelled as a function from the prompt to a success or failure outcome.

JavaScript dynamic behaviour that the handler observes is made explicit:
`JsonVal` models parsed JSON values, `jsTruthy` models JS truthiness,
`jsTrim` models `String.prototype.trim`, `destructureBody` models the
destructuring `const { description, referenceImage } = body` (which throws
on `null`), and a thrown `TypeError` from calling `.trim()` on a truthy
non-string lands in the outer catch-all, exactly as in the source.
`validatePhase` is the part of the handler before the provider call; the
handler invokes the prompt builder and the provider exactly when it
returns `callProvider`, which records the description and boolean flag
handed to the builder.
-/

set_option maxRecDepth 100000

/-- Fixed block appended when a reference image is present
(route.ts lines 16-25, byte for byte). -/
def referenceBlock : String :=
  "\n    Use the reference image as inspiration for:\n    - Overall style and aesthetic\n    - Similar silhouette and proportions\n    - Comparable fabric texture and draping\n    - Related design elements and details\n    - Similar photography style\n\n    However, create a unique piece that combines these elements with the specific requirements from the description.\n    "

/-- Fixed photography-specification block appended unconditionally
(route.ts lines 29-38, byte for byte). -/
def photoBlock : String :=
  "\n  Present the final design as a professional product photograph:\n  - Clean white or light gray background\n  - Studio-quality lighting to highlight fabric texture and details\n  - Sharp, clear, high-resolution image\n  - Professional fashion photography style\n  - Multiple angles if possible\n  - Photorealistic rendering\n  - HD quality\n  The final image should look like a high-end fashion e-commerce product photo."

/-- The prompt builder (route.ts lines 10-41): base clause with the verbatim
description, optional reference block, then the photography block. -/
def createPromptWithReference (description : String) (hasReferenceImage : Bool) : String :=
  let prompt := "Create a new clothing item based on this description: " ++ description ++ "."
  let prompt := if hasReferenceImage then prompt ++ referenceBlock else prompt
  prompt ++ photoBlock

/-- Parsed JSON values, the possible results of `req.json()`. -/
inductive JsonVal where
  | null
  | bool (b : Bool)
  | num (n : Int)
  | str (s : String)
  | arr (elems : List JsonVal)
  | obj (fields : List (String × JsonVal))

/-- JavaScript truthiness of a parsed JSON value. -/
def jsTruthy : JsonVal → Bool
  | .null => false
  | .bool b => b
  | .num n => n != 0
  | .str s => s != ""
  | .arr _ => true
  | .obj _ => true

/-- Truthiness of a possibly-undefined value (`none` models `undefined`). -/
def jsTruthyOpt : Option JsonVal → Bool
  | none => false
  | some v => jsTruthy v

/-- Property lookup on the field list of a parsed JSON object
(keys are unique after `JSON.parse`). `none` models `undefined`. -/
def lookupField : List (String × JsonVal) → String → Option JsonVal
  | [], _ => none
  | (k, v) :: rest, key => if k == key then some v else lookupField rest key

/-- The destructuring `const { description, referenceImage } = body`.
Destructuring `null` throws a TypeError (`none`); on a non-object the
properties are `undefined`. -/
def destructureBody : JsonVal → Option (Option JsonVal × Option JsonVal)
  | .null => none
  | .obj fields => some (lookupField fields "description", lookupField fields "referenceImage")
  | _ => some (none, none)

/-- Characters removed by `String.prototype.trim` (ASCII white space). -/
def jsWhitespace (c : Char) : Bool :=
  c == ' ' || c == '\t' || c == '\n' || c == '\r' || c == '\x0b' || c == '\x0c'

/-- `String.prototype.trim`: drop white space from both ends. -/
def jsTrim (s : String) : String :=
  ⟨((s.data.dropWhile jsWhitespace).reverse.dropWhile jsWhitespace).reverse⟩

/-- Whether a JSON value is a string (only strings have `.trim`). -/
def isStrVal : JsonVal → Bool
  | .str _ => true
  | _ => false

/-- One generated design as returned by the provider (`url`, optional
`revised_prompt`), passed through unchanged on success. -/
structure Design where
  url : String
  revised_prompt : Option String
deriving DecidableEq

/-- What the handler observes about a thrown provider-call failure:
whether it is an `Error` instance, and its `message`. -/
structure JsError where
  isErrorInstance : Bool
  message : String
deriving DecidableEq

/-- Outcome of `openai.images.generate`: a response whose `data` may be
absent, or a thrown value. -/
inductive ProviderResult where
  | success (data : Option (List Design))
  | failure (err : JsError)
deriving DecidableEq

/-- A terminal route response: an error JSON with an HTTP status, or the
success JSON carrying the list of designs. -/
inductive HandlerResult where
  | jsonError (status : Nat) (error : String)
  | jsonDesigns (designs : List Design)
deriving DecidableEq

/-- `message.includes(sub)`. -/
def strIncludes (s sub : String) : Bool := decide (sub.data <:+: s.data)

/-- The `Error('No images generated')` thrown inside the inner try
(route.ts line 89). -/
def noImagesError : JsError := { isErrorInstance := true, message := "No images generated" }

/-- The inner catch (route.ts lines 96-118): rate limit, then content
policy, both only for `Error` instances; otherwise the generic message. -/
def openaiCatch (e : JsError) : HandlerResult :=
  if e.isErrorInstance then
    if strIncludes e.message "rate limit" then
      .jsonError 429 "Rate limit exceeded. Please try again later."
    else if strIncludes e.message "content policy" then
      .jsonError 400 "Content policy violation. Please modify your request."
    else .jsonError 500 "Error generating image with OpenAI"
  else .jsonError 500 "Error generating image with OpenAI"

/-- The provider call and inner try (route.ts lines 76-118): a missing or
empty `data` throws `noImagesError`, which the inner catch classifies. -/
def providerPhase : ProviderResult → HandlerResult
  | .failure e => openaiCatch e
  | .success data =>
    match data with
    | none => openaiCatch noImagesError
    | some ds =>
      if ds.length == 0 then openaiCatch noImagesError
      else .jsonDesigns ds

/-- Where the handler stands after validation: a terminal response, or a
provider call with the description and reference flag that line 73 hands
to `createPromptWithReference`. -/
inductive PrePhase where
  | early (r : HandlerResult)
  | callProvider (description : String) (hasReferenceImage : Bool)
deriving DecidableEq

/-- Route.ts lines 52-73: body-parse failure, destructuring, the falsy or
blank description check, and the computation of `!!referenceImage`.
Calling `.trim()` on a truthy non-string throws, and the outer catch
(lines 120-126) turns that into the unexpected-error response. -/
def validatePhase (parsedBody : Option JsonVal) : PrePhase :=
  match parsedBody with
  | none => .early (.jsonError 400 "Invalid request body")
  | some body =>
    match destructureBody body with
    | none => .early (.jsonError 500 "An unexpected error occurred")
    | some (description, referenceImage) =>
      if jsTruthyOpt description then
        match description with
        | some (.str s) =>
          if (jsTrim s).length == 0 then .early (.jsonError 400 "Description is required")
          else .callProvider s (jsTruthyOpt referenceImage)
        | _ => .early (.jsonError 500 "An unexpected error occurred")
      else .early (.jsonError 400 "Description is required")

/-- The env-var guard `!process.env[...]`: absent or empty is falsy. -/
def envMissing : Option String → Bool
  | none => true
  | some s => s == ""

/-- The POST handler (route.ts lines 43-127): credential guard, then the
validation phase, then the provider call and its classification. -/
def POST (apiKey : Option String) (parsedBody : Option JsonVal)
    (provider : String → ProviderResult) : HandlerResult :=
  if envMissing apiKey then
    .jsonError 500 "OpenAI API key not configured in Replit secrets"
  else
    match validatePhase parsedBody with
    | .early r => r
    | .callProvider description hasRef =>
      providerPhase (provider (createPromptWithReference description hasRef))

/-- If a list whose head is `c` sits inside `ys ++ zs` while `c` never
occurs in `ys`, the occurrence sits entirely inside `zs`. -/
theorem headNotMemAppendSplit {α : Type} {xs ys zs : List α} {c : α}
    (h : xs <:+: ys ++ zs) (hhd : xs.head? = some c) (hc : c ∉ ys) : xs <:+: zs := by
  cases xs with
  | nil => simp at hhd
  | cons a xs' =>
    rw [List.head?_cons, Option.some_inj] at hhd
    subst hhd
    obtain ⟨s, t, hst⟩ := h
    have hs2 : s <+: ys ++ zs := ⟨(a :: xs') ++ t, by simpa [List.append_assoc] using hst⟩
    by_cases hlen : ys.length ≤ s.length
    · have hyss : ys <+: s :=
        List.prefix_of_prefix_length_le (List.prefix_append ys zs) hs2 hlen
      obtain ⟨s₂, rfl⟩ := hyss
      refine ⟨s₂, t, ?_⟩
      have hys : ys ++ (s₂ ++ ((a :: xs') ++ t)) = ys ++ zs := by
        simpa [List.append_assoc] using hst
      simpa [List.append_assoc] using List.append_cancel_left hys
    · have hsy : s <+: ys :=
        List.prefix_of_prefix_length_le hs2 (List.prefix_append ys zs)
          (Nat.le_of_lt (Nat.lt_of_not_le hlen))
      obtain ⟨y₂, rfl⟩ := hsy
      have hy₂ : y₂ ≠ [] := by
        intro hnil
        subst hnil
        simp at hlen
      have hst' : s ++ ((a :: xs') ++ t) = s ++ (y₂ ++ zs) := by
        simpa [List.append_assoc] using hst
      have hcancel : (a :: xs') ++ t = y₂ ++ zs := List.append_cancel_left hst'
      cases y₂ with
      | nil => exact absurd rfl hy₂
      | cons b y₂' =>
        have hab : a = b := by simpa using congrArg List.head? hcancel
        subst hab
        exact absurd (by simp : a ∈ s ++ a :: y₂') hc

/-- A string append is nonempty when the left side has nonempty data. -/
theorem appendNeEmptyOfLeft (a b : String) (ha : a.data ≠ []) : a ++ b ≠ "" := by
  intro h
  apply ha
  have hd : (a ++ b).data = [] := by rw [h]
  rw [String.data_append] at hd
  exact (List.append_eq_nil.mp hd).1

/-- The base clause always has nonempty data. -/
theorem baseDataNeNil (d : String) :
    ("Create a new clothing item based on this description: " ++ d ++ ".").data ≠ [] := by
  rw [String.data_append, String.data_append]
  intro h
  exact absurd ((List.append_eq_nil.mp ((List.append_eq_nil.mp h).1)).1) (by decide)

/-- Claim C1, counterexample: with the credential set, a valid description
and a provider success carrying an empty result list, the caller-visible
message is the generic provider-error one, not a message saying that no
images were generated; the internal `No images generated` error is
swallowed by the inner catch. -/
theorem c1_counterexample :
    POST (some "sk-test")
        (some (JsonVal.obj [("description", JsonVal.str "a dress"), ("referenceImage", JsonVal.null)]))
        (fun _ => ProviderResult.success (some []))
      = HandlerResult.jsonError 500 "Error generating image with OpenAI" ∧
    HandlerResult.jsonError 500 "Error generating image with OpenAI"
      ≠ HandlerResult.jsonError 500 "No images generated" :=
  ⟨rfl, by decide⟩

/-- Claim C1 (amended): for every request that passes configuration,
parsing and description validation, a provider success with an empty or
missing result list terminates the handler with the ProviderError class
(status 500); the error thrown internally says `No images generated`, but
the caller-visible message is `Error generating image with OpenAI`. -/
theorem c1_empty_results (apiKey : Option String) (parsedBody : Option JsonVal)
    (d : String) (b : Bool) (provider : String → ProviderResult)
    (hk : envMissing apiKey = false)
    (hcall : validatePhase parsedBody = PrePhase.callProvider d b)
    (hempty : provider (createPromptWithReference d b) = ProviderResult.success (some []) ∨
              provider (createPromptWithReference d b) = ProviderResult.success none) :
    POST apiKey parsedBody provider
      = HandlerResult.jsonError 500 "Error generating image with OpenAI" := by
  have hpost : POST apiKey parsedBody provider
      = providerPhase (provider (createPromptWithReference d b)) := by
    simp [POST, hk, hcall]
  rcases hempty with he | he <;> rw [hpost, he] <;> rfl

/-- Claim C1 witness: a concrete run with a missing `data` field. -/
theorem c1_witness :
    POST (some "sk-test")
        (some (JsonVal.obj [("description", JsonVal.str "a dress"), ("referenceImage", JsonVal.null)]))
        (fun _ => ProviderResult.success none)
      = HandlerResult.jsonError 500 "Error generating image with OpenAI" :=
  c1_empty_results _ _ "a dress" false _ rfl rfl (Or.inr rfl)

/-- Claim C2, counterexample: the empty string is non-null, yet the flag
handed to the prompt builder is `false`, because line 73 computes
`!!referenceImage` (JS truthiness), not a non-null test. -/
theorem c2_counterexample :
    validatePhase
        (some (JsonVal.obj [("description", JsonVal.str "a dress"), ("referenceImage", JsonVal.str "")]))
      = PrePhase.callProvider "a dress" false ∧
    JsonVal.str "" ≠ JsonVal.null :=
  ⟨rfl, fun h => JsonVal.noConfusion h⟩

/-- Claim C2 (amended): for every parsed body whose description is a valid
string, the flag passed to the prompt builder equals the JS truthiness of
the `referenceImage` field — true for every non-empty string, false for
`null`, a missing field, or the empty string. -/
theorem c2_flag_is_truthiness (fields : List (String × JsonVal)) (s : String)
    (hdesc : lookupField fields "description" = some (JsonVal.str s))
    (hne : (jsTrim s).length ≠ 0) :
    validatePhase (some (JsonVal.obj fields))
      = PrePhase.callProvider s (jsTruthyOpt (lookupField fields "referenceImage")) := by
  have hs : s ≠ "" := by
    intro h
    subst h
    exact hne rfl
  simp [validatePhase, destructureBody, hdesc, jsTruthyOpt, jsTruthy, bne_iff_ne, hs,
    beq_eq_false_iff_ne, hne]

/-- Claim C2 witness: a body with a non-empty reference image string. -/
theorem c2_witness :
    (jsTrim "a dress").length ≠ 0 ∧
    validatePhase
        (some (JsonVal.obj [("description", JsonVal.str "a dress"), ("referenceImage", JsonVal.str "img")]))
      = PrePhase.callProvider "a dress"
          (jsTruthyOpt (lookupField
            [("description", JsonVal.str "a dress"), ("referenceImage", JsonVal.str "img")]
            "referenceImage")) :=
  ⟨by decide, c2_flag_is_truthiness _ "a dress" rfl (by decide)⟩

/-- Claim C3, counterexample: a failure whose message contains `content
policy` is nonetheless classified as a rate limit when the message also
contains `rate limit` (that branch is checked first), and falls to the
generic provider error when the thrown value is not an `Error` instance. -/
theorem c3_counterexample :
    POST (some "sk-test")
        (some (JsonVal.obj [("description", JsonVal.str "a dress"), ("referenceImage", JsonVal.null)]))
        (fun _ => ProviderResult.failure { isErrorInstance := true, message := "content policy and rate limit" })
      = HandlerResult.jsonError 429 "Rate limit exceeded. Please try again later." ∧
    POST (some "sk-test")
        (some (JsonVal.obj [("description", JsonVal.str "a dress"), ("referenceImage", JsonVal.null)]))
        (fun _ => ProviderResult.failure { isErrorInstance := false, message := "content policy" })
      = HandlerResult.jsonError 500 "Error generating image with OpenAI" :=
  ⟨rfl, rfl⟩

/-- Claim C3 (amended): a provider-call failure that is an `Error`
instance, whose message contains `content policy` and does not contain
`rate limit`, terminates the handler with the content-policy
classification: status 400, message `Content policy violation. Please
modify your request.`. -/
theorem c3_content_policy (apiKey : Option String) (parsedBody : Option JsonVal)
    (d : String) (b : Bool) (provider : String → ProviderResult) (e : JsError)
    (hk : envMissing apiKey = false)
    (hcall : validatePhase parsedBody = PrePhase.callProvider d b)
    (hfail : provider (createPromptWithReference d b) = ProviderResult.failure e)
    (hinst : e.isErrorInstance = true)
    (hrl : strIncludes e.message "rate limit" = false)
    (hcp : strIncludes e.message "content policy" = true) :
    POST apiKey parsedBody provider
      = HandlerResult.jsonError 400 "Content policy violation. Please modify your request." := by
  simp [POST, hk, hcall, hfail, providerPhase, openaiCatch, hinst, hrl, hcp]

/-- Claim C3 witness: a concrete `Error` whose message mentions only the
content policy. -/
theorem c3_witness :
    POST (some "sk-test")
        (some (JsonVal.obj [("description", JsonVal.str "a dress"), ("referenceImage", JsonVal.null)]))
        (fun _ => ProviderResult.failure { isErrorInstance := true, message := "content policy" })
      = HandlerResult.jsonError 400 "Content policy violation. Please modify your request." :=
  c3_content_policy _ _ "a dress" false _
    { isErrorInstance := true, message := "content policy" } rfl rfl rfl rfl rfl rfl

/-- Claim C4: with the credential set, a request whose description field is
missing, empty, or trims to the empty string is rejected with status 400
and `Description is required`; quantifying over the provider shows the
provider is never consulted. -/
theorem c4_description_required (apiKey : Option String)
    (fields : List (String × JsonVal)) (provider : String → ProviderResult)
    (hk : envMissing apiKey = false)
    (hdesc : lookupField fields "description" = none ∨
             ∃ s : String, lookupField fields "description" = some (JsonVal.str s) ∧ jsTrim s = "") :
    POST apiKey (some (JsonVal.obj fields)) provider
      = HandlerResult.jsonError 400 "Description is required" := by
  rcases hdesc with hnone | ⟨s, hsome, htrim⟩
  · simp [POST, hk, validatePhase, destructureBody, hnone, jsTruthyOpt]
  · by_cases hs : s = ""
    · subst hs
      simp [POST, hk, validatePhase, destructureBody, hsome, jsTruthyOpt, jsTruthy]
    · have hlen : ((jsTrim s).length == 0) = true := by rw [htrim]; rfl
      simp [POST, hk, validatePhase, destructureBody, hsome, jsTruthyOpt, jsTruthy,
        bne_iff_ne, hs, hlen]

/-- Claim C4 witness: the empty and the whitespace-only description. -/
theorem c4_witness :
    POST (some "sk-test")
        (some (JsonVal.obj [("description", JsonVal.str ""), ("referenceImage", JsonVal.null)]))
        (fun _ => ProviderResult.success none)
      = HandlerResult.jsonError 400 "Description is required" ∧
    POST (some "sk-test")
        (some (JsonVal.obj [("description", JsonVal.str "   "), ("referenceImage", JsonVal.null)]))
        (fun _ => ProviderResult.success none)
      = HandlerResult.jsonError 400 "Description is required" :=
  ⟨c4_description_required _ _ _ rfl (Or.inr ⟨"", rfl, by decide⟩),
   c4_description_required _ _ _ rfl (Or.inr ⟨"   ", rfl, by decide⟩)⟩

/-- Claim C5: an absent (or empty, hence falsy) credential short-circuits
the handler to the configuration-missing response for every request body,
parsed or unparsable, and for every provider behaviour. -/
theorem c5_config_missing (apiKey : Option String) (parsedBody : Option JsonVal)
    (provider : String → ProviderResult) (hk : envMissing apiKey = true) :
    POST apiKey parsedBody provider
      = HandlerResult.jsonError 500 "OpenAI API key not configured in Replit secrets" := by
  simp [POST, hk]

/-- Claim C5 witness: absent and empty credentials, with a well-formed and
with an unparsable body. -/
theorem c5_witness :
    POST none
        (some (JsonVal.obj [("description", JsonVal.str "a dress"), ("referenceImage", JsonVal.null)]))
        (fun _ => ProviderResult.success none)
      = HandlerResult.jsonError 500 "OpenAI API key not configured in Replit secrets" ∧
    POST (some "") none (fun _ => ProviderResult.success none)
      = HandlerResult.jsonError 500 "OpenAI API key not configured in Replit secrets" :=
  ⟨c5_config_missing _ _ _ rfl, c5_config_missing _ _ _ rfl⟩

/-- Claim C6: for every non-empty description and both flag values, the
built prompt contains the description verbatim as a substring. -/
theorem c6_description_verbatim (d : String) (hasRef : Bool) (hd : d ≠ "") :
    d.data <:+: (createPromptWithReference d hasRef).data := by
  cases hasRef
  · refine ⟨"Create a new clothing item based on this description: ".data,
      ".".data ++ photoBlock.data, ?_⟩
    simp [createPromptWithReference, String.data_append, List.append_assoc]
  · refine ⟨"Create a new clothing item based on this description: ".data,
      ".".data ++ referenceBlock.data ++ photoBlock.data, ?_⟩
    simp [createPromptWithReference, String.data_append, List.append_assoc]

/-- Claim C6 witness: a concrete description under both flags. -/
theorem c6_witness :
    ("a dress" : String) ≠ "" ∧
    "a dress".data <:+: (createPromptWithReference "a dress" true).data ∧
    "a dress".data <:+: (createPromptWithReference "a dress" false).data :=
  ⟨by decide, c6_description_verbatim "a dress" true (by decide),
    c6_description_verbatim "a dress" false (by decide)⟩

/-- Claim C7, counterexample: a description that itself embeds the
reference-guidance block smuggles the block into the flag-off prompt, so
`build(d, false)` is not always free of the block. -/
theorem c7_counterexample :
    referenceBlock.data <:+: (createPromptWithReference referenceBlock false).data := by
  refine ⟨"Create a new clothing item based on this description: ".data,
    ".".data ++ photoBlock.data, ?_⟩
  simp [createPromptWithReference, String.data_append, List.append_assoc]

/-- Claim C7 (amended): for every description the flag-on prompt contains
the reference-guidance block; the flag-off prompt does not contain it
provided the description is free of newline characters (the block itself
spans several lines, so only a multi-line description can smuggle it in). -/
theorem c7_reference_block (d : String) :
    referenceBlock.data <:+: (createPromptWithReference d true).data ∧
    ((∀ c ∈ d.data, c ≠ '\n') →
      ¬ referenceBlock.data <:+: (createPromptWithReference d false).data) := by
  constructor
  · refine ⟨("Create a new clothing item based on this description: " ++ d ++ ".").data,
      photoBlock.data, ?_⟩
    simp [createPromptWithReference, String.data_append, List.append_assoc]
  · intro hnl h
    have hks : (createPromptWithReference d false).data
        = ("Create a new clothing item based on this description: " ++ d ++ ".").data
          ++ photoBlock.data := by
      simp [createPromptWithReference, String.data_append, List.append_assoc]
    rw [hks] at h
    have hhd : referenceBlock.data.head? = some '\n' := rfl
    have hc : '\n' ∉ ("Create a new clothing item based on this description: " ++ d ++ ".").data := by
      intro hmem
      rw [String.data_append, String.data_append] at hmem
      rcases List.mem_append.mp hmem with h1 | h2
      · rcases List.mem_append.mp h1 with h1a | h1b
        · exact absurd h1a (by decide)
        · exact hnl _ h1b rfl
      · exact absurd h2 (by decide)
    exact absurd (headNotMemAppendSplit h hhd hc) (by decide)

/-- Claim C7 witness: a concrete single-line description. -/
theorem c7_witness :
    referenceBlock.data <:+: (createPromptWithReference "a dress" true).data ∧
    ¬ referenceBlock.data <:+: (createPromptWithReference "a dress" false).data :=
  ⟨(c7_reference_block "a dress").1, (c7_reference_block "a dress").2 (by decide)⟩

/-- Claim C8: the prompt builder is a total pure function (it is a Lean
function of its two arguments) and its result is never the empty string,
for every input including the empty description. -/
theorem c8_prompt_nonempty (d : String) (hasRef : Bool) :
    createPromptWithReference d hasRef ≠ "" := by
  cases hasRef
  · exact appendNeEmptyOfLeft
      ("Create a new clothing item based on this description: " ++ d ++ ".")
      photoBlock (baseDataNeNil d)
  · refine appendNeEmptyOfLeft
      ("Create a new clothing item based on this description: " ++ d ++ "." ++ referenceBlock)
      photoBlock ?_
    intro hdata
    rw [String.data_append] at hdata
    exact baseDataNeNil d (List.append_eq_nil.mp hdata).1

/-- Claim C9, counterexample: the empty string and a data URL are two
different non-null reference image values, yet they flip the flag handed
to the builder, and the two flag values yield different prompts — the
prompt does not depend on the reference image through non-nullness alone. -/
theorem c9_counterexample :
    validatePhase
        (some (JsonVal.obj [("description", JsonVal.str "a red dress"), ("referenceImage", JsonVal.str "")]))
      = PrePhase.callProvider "a red dress" false ∧
    validatePhase
        (some (JsonVal.obj
          [("description", JsonVal.str "a red dress"),
           ("referenceImage", JsonVal.str "data:image/png;base64,AAAA")]))
      = PrePhase.callProvider "a red dress" true ∧
    createPromptWithReference "a red dress" false ≠ createPromptWithReference "a red dress" true :=
  ⟨rfl, rfl, by decide⟩

/-- Claim C9 (amended): the builder is deterministic (it is a function:
equal inputs give the identical string), and the handler outcome depends
on the reference image only through its JS truthiness: two bodies equal
except for reference image values of equal truthiness — in particular any
two non-empty strings — are handled identically under every provider. -/
theorem c9_truthiness_invariance (dd : String) (bb : Bool)
    (d r1 r2 : JsonVal) (apiKey : Option String) (provider : String → ProviderResult)
    (h : jsTruthy r1 = jsTruthy r2) :
    createPromptWithReference dd bb = createPromptWithReference dd bb ∧
    POST apiKey (some (JsonVal.obj [("description", d), ("referenceImage", r1)])) provider
      = POST apiKey (some (JsonVal.obj [("description", d), ("referenceImage", r2)])) provider := by
  refine ⟨rfl, ?_⟩
  have l1 : destructureBody (JsonVal.obj [("description", d), ("referenceImage", r1)])
      = some (some d, some r1) := rfl
  have l2 : destructureBody (JsonVal.obj [("description", d), ("referenceImage", r2)])
      = some (some d, some r2) := rfl
  simp [POST, validatePhase, l1, l2, jsTruthyOpt, h]

/-- Claim C9 witness: two distinct non-empty reference image strings. -/
theorem c9_witness :
    createPromptWithReference "x" false = createPromptWithReference "x" false ∧
    POST (some "sk-test")
        (some (JsonVal.obj [("description", JsonVal.str "a dress"), ("referenceImage", JsonVal.str "imgA")]))
        (fun _ => ProviderResult.success none)
      = POST (some "sk-test")
        (some (JsonVal.obj [("description", JsonVal.str "a dress"), ("referenceImage", JsonVal.str "imgBB")]))
        (fun _ => ProviderResult.success none) :=
  c9_truthiness_invariance "x" false (JsonVal.str "a dress")
    (JsonVal.str "imgA") (JsonVal.str "imgBB") (some "sk-test")
    (fun _ => ProviderResult.success none) rfl

/-- Claim C10: a parsed body whose description is truthy but not a string
makes the `.trim()` call throw; the outer catch yields status 500 and
`An unexpected error occurred` — not the invalid-body or
description-required responses — and, the provider being universally
quantified, it is never invoked. -/
theorem c10_truthy_nonstring_description (apiKey : Option String)
    (fields : List (String × JsonVal)) (v : JsonVal) (provider : String → ProviderResult)
    (hk : envMissing apiKey = false)
    (hdesc : lookupField fields "description" = some v)
    (htruthy : jsTruthy v = true)
    (hnstr : isStrVal v = false) :
    POST apiKey (some (JsonVal.obj fields)) provider
      = HandlerResult.jsonError 500 "An unexpected error occurred" := by
  cases v with
  | str s => simp [isStrVal] at hnstr
  | null => simp [jsTruthy] at htruthy
  | bool b =>
    simp [jsTruthy] at htruthy
    simp [POST, hk, validatePhase, destructureBody, hdesc, jsTruthyOpt, jsTruthy, htruthy]
  | num n =>
    simp [jsTruthy] at htruthy
    simp [POST, hk, validatePhase, destructureBody, hdesc, jsTruthyOpt, jsTruthy, htruthy]
  | arr es =>
    simp [POST, hk, validatePhase, destructureBody, hdesc, jsTruthyOpt, jsTruthy]
  | obj fs =>
    simp [POST, hk, validatePhase, destructureBody, hdesc, jsTruthyOpt, jsTruthy]

/-- Claim C10 witness: a numeric description. -/
theorem c10_witness :
    POST (some "sk-test") (some (JsonVal.obj [("description", JsonVal.num 7)]))
        (fun _ => ProviderResult.success none)
      = HandlerResult.jsonError 500 "An unexpected error occurred" :=
  c10_truthy_nonstring_description _ _ (JsonVal.num 7) _ rfl rfl rfl rfl
